import Mathlib

/-!
Verification of the lunar <-> solar conversion core of `ziweidoushu-core`
(`src/ziweidoushu_core/calendar/lunar.py`).

Embedding notes:
* Python integers are embedded as `ℤ`.  Python's floor division `//` with a
  positive divisor coincides with Lean's `/` on `ℤ` (Euclidean division), so
  the Julian-day formulas are transcribed verbatim with `/`.
* Python's `int(x)` applied to a float truncates toward zero; on an exact
  rational it is `pyInt : ℚ → ℤ` below.  The code applies `int` to four
  float expressions built from the decimal constants `2415021.076998695`
  and `29.530588853`; each is embedded as an integer formula that computes
  the truncation of the exact rational value of the expression (the lemmas
  `k_estimate_eq_pyInt`, `k_from_a11_eq_pyInt`, `m11_k_eq_pyInt` and
  `diff29_eq_pyInt` prove the integer formulas equal to `pyInt` of the
  literal rational expressions, so the transcription can be checked against
  the source text).  The only idealization is that the source evaluates
  these expressions in IEEE double precision; exact rational evaluation can
  differ only on ulp-level knife-edge inputs, and no theorem below depends
  on the value of these estimates.
* The floating-point astronomy (`_new_moon_day` and `_sun_longitude`,
  truncated trigonometric series evaluated with `math.sin` on IEEE doubles)
  and the external timezone resolver (`_tz_offset_hours`, backed by
  `zoneinfo`) cannot be evaluated by the kernel; they are abstracted as an
  oracle structure `Astro` whose fields have exactly the interface the
  calendar code consumes: `new_moon_day : ℤ → ℤ → ℤ` (lunation index and
  timezone offset to local-day JDN), `sun_longitude : ℤ → ℤ → ℚ` (JDN and
  timezone offset to the longitude value, which the calendar code only ever
  compares with `>= 3.141592653589793` and `==`), and
  `tz_offset_hours : ℤ → ℤ → ℤ → ℤ` (the whole-hour offset for a
  (year, month, day) date, for a fixed IANA zone string).  Theorems about
  the converters are stated for an arbitrary oracle; concrete evaluations
  use the explicit simple oracle `meanAstro` defined below (mean-motion new
  moons, injective longitudes above pi, fixed UTC+7).  For the monotonicity
  claim about `_new_moon_day` itself, the function body is additionally
  transcribed over exact rationals (`new_moon_day_q` below), with `math.sin`
  abstracted as an arbitrary function bounded by `[-1, 1]` — the one
  property of the sine the monotonicity argument needs.
* Python `datetime.date(y, m, d)` raises `ValueError` for years outside
  [1, 9999]; `lunar_to_solar` constructs two `date` objects, and those two
  year-range checks are the only parts of the `datetime` library modelled
  (the month and day arguments of both constructions are always in range:
  the first clamps the month to [1,12] and uses day 15, the second receives
  the always-consistent output of `_jd_to_date`).
-/

namespace Ziwei

/-- Python `int(q)` on an exact rational value: truncation toward zero
(the numerator T-divided by the positive denominator). -/
def pyInt (q : ℚ) : ℤ := q.num.tdiv q.den

/-- `_jd_from_date(dd, mm, yy)` from `lunar.py` lines 54-59 (all Python `//`
divisions have positive divisors, hence are Lean `ℤ` division). -/
def jd_from_date (dd mm yy : ℤ) : ℤ :=
  let a := (14 - mm) / 12
  let y := yy + 4800 - a
  let m := mm + 12 * a - 3
  dd + (153 * m + 2) / 5 + 365 * y + y / 4 - y / 100 + y / 400 - 32045

/-- `_jd_to_date(jd)` from `lunar.py` lines 61-71; returns `(day, month, year)`. -/
def jd_to_date (jd : ℤ) : ℤ × ℤ × ℤ :=
  let a := jd + 32044
  let b := (4 * a + 3) / 146097
  let c := a - (b * 146097) / 4
  let d := (4 * c + 3) / 1461
  let e := c - (1461 * d) / 4
  let m := (5 * e + 2) / 153
  let day := e - (153 * m + 2) / 5 + 1
  let month := m + 3 - 12 * (m / 10)
  let year := b * 100 + d - 4800 + m / 10
  (day, month, year)

/-- Number of days of Gregorian month `m` in year `y`, for stating the valid
date domain of the round-trip claim. -/
def days_in_month (m y : ℤ) : ℤ :=
  if m = 2 then (if (y % 4 = 0 ∧ y % 100 ≠ 0) ∨ y % 400 = 0 then 29 else 28)
  else if m = 4 ∨ m = 6 ∨ m = 9 ∨ m = 11 then 30
  else 31

/-- The source constant `2415021.076998695` (new-moon epoch JDN) as the exact
decimal rational. -/
def epochQ : ℚ := mkRat 2415021076998695 1000000000

/-- The source constant `29.530588853` (mean synodic month length in days). -/
def synodicQ : ℚ := mkRat 29530588853 1000000000

/-- The source constant `3.141592653589793` used as the winter-solstice
longitude threshold in `_lunar_month11`. -/
def piQ : ℚ := mkRat 3141592653589793 1000000000000000

/-- `int((d - 2415021.076998695) / 29.530588853)` (source line 189), as an
integer formula: the exact rational value of the float expression is
`(10⁹·d − 2415021076998695) / 29530588853`, and `int` truncates it toward
zero.  `k_estimate_eq_pyInt` below certifies the transcription. -/
def k_estimate (d : ℤ) : ℤ :=
  (1000000000 * d - 2415021076998695).tdiv 29530588853

/-- `int(0.5 + (a11 - 2415021.076998695) / 29.530588853)` (source lines 155
and 240): the exact rational value of the float expression is
`(2·10⁹·a11 − 2·2415021076998695 + 29530588853) / (2·29530588853)`.
`k_from_a11_eq_pyInt` below certifies the transcription. -/
def k_from_a11 (a11 : ℤ) : ℤ :=
  (2000000000 * a11 - 4830042153997390 + 29530588853).tdiv 59061177706

/-- `int(off / 29.530588853)` (source line 144): the exact rational value is
`10⁹·off / 29530588853`.  `m11_k_eq_pyInt` below certifies the
transcription. -/
def m11_k (off : ℤ) : ℤ := (1000000000 * off).tdiv 29530588853

/-- `int((month_start - a11) / 29)` (source line 203): Python true division
of two ints followed by `int` truncation.  `diff29_eq_pyInt` below
certifies the transcription. -/
def diff29 (n : ℤ) : ℤ := n.tdiv 29

/-- Oracle interface for the floating-point astronomy of `lunar.py`
(`_new_moon_day`, `_sun_longitude`) and the external timezone resolver
(`_tz_offset_hours` for a fixed zone string); see the module docstring. -/
structure Astro where
  new_moon_day : ℤ → ℤ → ℤ
  sun_longitude : ℤ → ℤ → ℚ
  tz_offset_hours : ℤ → ℤ → ℤ → ℤ

/-- `_lunar_month11(yy, tz)` from `lunar.py` lines 139-149: JDN of the new
moon chosen as the month-11 anchor of Gregorian year `yy`. -/
def lunar_month11 (A : Astro) (yy tz : ℤ) : ℤ :=
  let off := jd_from_date 31 12 yy - 2415021
  let k := m11_k off
  let nm := A.new_moon_day k tz
  if piQ ≤ A.sun_longitude nm tz then A.new_moon_day (k - 1) tz else nm

/-- The longitude observed at the `j`-th new moon after the anchor `a11`
during the `_leap_month_offset` scan (source lines 158 and 162). -/
def scan_g (A : Astro) (a11 tz j : ℤ) : ℚ :=
  A.sun_longitude (A.new_moon_day (k_from_a11 a11 + j) tz) tz

/-- The `while True` loop of `_leap_month_offset` (source lines 159-165),
written with explicit fuel.  One call with counter `i` performs
`last := arc; i += 1; arc := g i; if arc == last or i >= 15: break`, and the
function returns `i - 1` at the break.  Started with `fuel = 14, i = 1` the
fuel never runs out: the counter reaches 15 first (the fuel-0 branch returns
the same `i - 1` the loop would). -/
def leap_scan (g : ℤ → ℚ) : ℕ → ℤ → ℚ → ℤ
  | 0, i, _ => i - 1
  | fuel + 1, i, arc =>
    let last := arc
    let i2 := i + 1
    let arc2 := g i2
    if arc2 = last ∨ 15 ≤ i2 then i2 - 1 else leap_scan g fuel i2 arc2

/-- `_leap_month_offset(a11, tz)` from `lunar.py` lines 151-165. -/
def leap_month_offset (A : Astro) (a11 tz : ℤ) : ℤ :=
  leap_scan (scan_g A a11 tz) 14 1 (scan_g A a11 tz 1)

/-- The result dict of `solar_to_lunar` (source lines 219-224). -/
structure LunarResult where
  lunar_year : ℤ
  lunar_month : ℤ
  lunar_day : ℤ
  is_leap : Bool
deriving DecidableEq, Repr

/-- A Python `datetime.datetime` as consumed by `solar_to_lunar`: the code
reads `dt.tzinfo` (only to `replace` it when absent, which changes no other
field) and `dt.date()`, so only `year`, `month`, `day` can influence the
result; the remaining fields are carried to state that fact. -/
structure PyDateTime where
  year : ℤ
  month : ℤ
  day : ℤ
  hour : ℤ
  minute : ℤ
  second : ℤ
  tz_aware : Bool
deriving DecidableEq, Repr

/-- A Python `datetime.date` as returned by `lunar_to_solar`. -/
structure PyDate where
  year : ℤ
  month : ℤ
  day : ℤ
deriving DecidableEq, Repr

/-! `solar_to_lunar` (source lines 172-224), decomposed into one definition
per local variable of the Python function, in source order. -/

/-- `tz_h = _tz_offset_hours(tz_str, d)` (line 185); the date `d` is
`dt.date()` regardless of the `tzinfo` replacement on line 183. -/
def stl_tz (A : Astro) (dt : PyDateTime) : ℤ :=
  A.tz_offset_hours dt.year dt.month dt.day

/-- `day_number = _jd_from_date(dd, mm, yy)` (line 188). -/
def stl_day_number (dt : PyDateTime) : ℤ := jd_from_date dt.day dt.month dt.year

/-- `k = int((day_number - 2415021.076998695) / 29.530588853)` (line 189). -/
def stl_k (dt : PyDateTime) : ℤ := k_estimate (stl_day_number dt)

/-- `month_start` after the overshoot guard (lines 190-192). -/
def stl_month_start (A : Astro) (dt : PyDateTime) : ℤ :=
  let ms0 := A.new_moon_day (stl_k dt + 1) (stl_tz A dt)
  if stl_day_number dt < ms0 then A.new_moon_day (stl_k dt) (stl_tz A dt) else ms0

/-- `a11 = _lunar_month11(yy, tz_h)` before any recomputation (line 194). -/
def stl_a11_first (A : Astro) (dt : PyDateTime) : ℤ :=
  lunar_month11 A dt.year (stl_tz A dt)

/-- `b11 = _lunar_month11(yy + 1, tz_h)` (line 195); note it is not updated
in the `a11 >= month_start` branch. -/
def stl_b11 (A : Astro) (dt : PyDateTime) : ℤ :=
  lunar_month11 A (dt.year + 1) (stl_tz A dt)

/-- The value of `a11` after lines 196-200 (possibly recomputed for
`yy - 1`). -/
def stl_a11 (A : Astro) (dt : PyDateTime) : ℤ :=
  if stl_month_start A dt ≤ stl_a11_first A dt then
    lunar_month11 A (dt.year - 1) (stl_tz A dt)
  else stl_a11_first A dt

/-- The value of `lunar_year` after lines 196-200 (before the final
adjustment of lines 216-217). -/
def stl_year0 (A : Astro) (dt : PyDateTime) : ℤ :=
  if stl_month_start A dt ≤ stl_a11_first A dt then dt.year
  else if stl_b11 A dt ≤ stl_month_start A dt then dt.year + 1 else dt.year

/-- `diff = int((month_start - a11) / 29)` (line 203). -/
def stl_diff (A : Astro) (dt : PyDateTime) : ℤ :=
  diff29 (stl_month_start A dt - stl_a11 A dt)

/-- `(lunar_month, is_leap)` after the leap branch of lines 204-212, before
the `> 12` normalization. -/
def stl_month_leap (A : Astro) (dt : PyDateTime) : ℤ × Bool :=
  if 365 < stl_b11 A dt - stl_a11 A dt then
    let leap_month_diff := leap_month_offset A (stl_a11 A dt) (stl_tz A dt)
    if leap_month_diff ≤ stl_diff A dt then
      (stl_diff A dt + 10, decide (stl_diff A dt = leap_month_diff))
    else (stl_diff A dt + 11, false)
  else (stl_diff A dt + 11, false)

/-- `solar_to_lunar(dt, tz_str)` (source lines 172-224); the oracle `A`
carries the fixed `tz_str`. -/
def solar_to_lunar (A : Astro) (dt : PyDateTime) : LunarResult :=
  let lunar_month0 := (stl_month_leap A dt).1
  let lunar_month := if 12 < lunar_month0 then lunar_month0 - 12 else lunar_month0
  { lunar_year :=
      if 11 ≤ lunar_month ∧ stl_diff A dt < 4 then stl_year0 A dt - 1
      else stl_year0 A dt
    lunar_month := lunar_month
    lunar_day := stl_day_number dt - stl_month_start A dt + 1
    is_leap := (stl_month_leap A dt).2 }

/-! `lunar_to_solar` (source lines 226-257), decomposed the same way. -/

/-- The `ValueError` message of source line 250. -/
def invalidLeapMsg : String := "Invalid leap month for the given lunar year"

/-- The `ValueError` raised by `datetime.date` for a year outside
[1, 9999]. -/
def dateRangeMsg : String := "year must be in 1..9999"

/-- `tz_h = _tz_offset_hours(tz_str, date(lunar_year, max(1, min(12,
lunar_month)), 15))` (line 232). -/
def lts_tz (A : Astro) (ly lm : ℤ) : ℤ :=
  A.tz_offset_hours ly (max 1 (min 12 lm)) 15

/-- `a11` chosen by lines 233-238. -/
def lts_a11 (A : Astro) (ly lm : ℤ) : ℤ :=
  if lm < 11 then lunar_month11 A (ly - 1) (lts_tz A ly lm)
  else lunar_month11 A ly (lts_tz A ly lm)

/-- `b11` chosen by lines 233-238. -/
def lts_b11 (A : Astro) (ly lm : ℤ) : ℤ :=
  if lm < 11 then lunar_month11 A ly (lts_tz A ly lm)
  else lunar_month11 A (ly + 1) (lts_tz A ly lm)

/-- `off` after lines 241-243 (normalized into [0, 11] for months in
[1, 12]). -/
def lts_off1 (lm : ℤ) : ℤ := if lm - 11 < 0 then lm - 11 + 12 else lm - 11

/-- Lines 245-252: either the `ValueError` of line 250 or the final lunation
offset used for the month start. -/
def lts_step (A : Astro) (ly lm : ℤ) (il : Bool) : Except String ℤ :=
  if 365 < lts_b11 A ly lm - lts_a11 A ly lm then
    let leap_off := leap_month_offset A (lts_a11 A ly lm) (lts_tz A ly lm)
    if il ∧ lts_off1 lm ≠ leap_off - 1 then .error invalidLeapMsg
    else .ok (if il ∨ leap_off ≤ lts_off1 lm then lts_off1 lm + 1 else lts_off1 lm)
  else .ok (lts_off1 lm)

/-- `month_start = _new_moon_day(k + off, tz_h)` (line 254). -/
def lts_month_start (A : Astro) (ly lm off : ℤ) : ℤ :=
  A.new_moon_day (k_from_a11 (lts_a11 A ly lm) + off) (lts_tz A ly lm)

/-- `lunar_to_solar(lunar_year, lunar_month, lunar_day, is_leap, tz_str)`
(source lines 226-257).  `Except.error` models the two `ValueError` sources:
the explicit raise of line 250 and the `datetime.date` constructors (year
range only, see the module docstring). -/
def lunar_to_solar (A : Astro) (ly lm ld : ℤ) (il : Bool) : Except String PyDate :=
  if ly < 1 ∨ 9999 < ly then .error dateRangeMsg
  else
    match lts_step A ly lm il with
    | .error e => .error e
    | .ok off =>
      let jdn := lts_month_start A ly lm off + ld - 1
      let t := jd_to_date jdn
      if t.2.2 < 1 ∨ 9999 < t.2.2 then .error dateRangeMsg
      else .ok ⟨t.2.2, t.2.1, t.1⟩

/-- A concrete, kernel-evaluable oracle used for witnesses: mean-motion new
moons (`floor(2415020.75933 + 29.530588853·k + 0.5 + tz/24)`, the `Jd1` mean
term of `_new_moon_day` without periodic corrections, written over the
common denominator 24·10⁹), a sun longitude `4 + 1/(jdn + 3·10⁶)` that is
injective in the JDN and always above `piQ`, and the constant UTC+7 offset
of `Asia/Ho_Chi_Minh`. -/
def meanAstro : Astro where
  new_moon_day k tz :=
    (57960498223920000 + 12000000000 + 708734132472 * k + 1000000000 * tz) / 24000000000
  sun_longitude j tz := Rat.divInt (4 * (j + 3000000) + 1 + 0 * tz) (j + 3000000)
  tz_offset_hours y m d := 7 + 0 * (y + m + d)

deriving instance DecidableEq for Except

-- sanity checks of the integer core
example : (-7 : ℤ) / 2 = -4 := by decide
example : jd_from_date 1 1 2000 = 2451545 := by decide
example : jd_to_date 2451545 = (1, 1, 2000) := by decide

/-! Correspondence of the integer formulas with the source's rational
expressions. -/

/-- `pyInt` of a ratio of integers with positive denominator is truncating
division. -/
lemma pyInt_intCast_div (a b : ℤ) (hb : 0 < b) :
    pyInt ((a : ℚ) / (b : ℚ)) = a.tdiv b := by
  have hb0 : ((b : ℚ)) ≠ 0 := by positivity
  rcases le_or_lt 0 a with ha | ha
  · have hq : (0 : ℚ) ≤ (a : ℚ) / (b : ℚ) := by positivity
    rw [pyInt, Int.tdiv_eq_ediv (Rat.num_nonneg.mpr hq) (by positivity),
      Int.tdiv_eq_ediv ha hb.le, ← Rat.floor_def]
    have hbn : b = ((b.toNat : ℕ) : ℤ) := by omega
    rw [hbn, show (((b.toNat : ℕ) : ℤ) : ℚ) = ((b.toNat : ℕ) : ℚ) by push_cast; ring]
    exact Rat.floor_intCast_div_natCast a b.toNat
  · have hneg : ((a : ℚ) / (b : ℚ)) = -(((-a : ℤ) : ℚ) / (b : ℚ)) := by push_cast; ring
    have h1 : pyInt ((a : ℚ) / (b : ℚ)) = -pyInt (((-a : ℤ) : ℚ) / (b : ℚ)) := by
      rw [hneg, pyInt, pyInt, Rat.neg_num, Rat.neg_den, Int.neg_tdiv]
    have h2 : pyInt (((-a : ℤ) : ℚ) / (b : ℚ)) = (-a).tdiv b := by
      have hq : (0 : ℚ) ≤ ((-a : ℤ) : ℚ) / (b : ℚ) := by
        apply div_nonneg _ (by positivity)
        exact_mod_cast (by omega : (0 : ℤ) ≤ -a)
      rw [pyInt, Int.tdiv_eq_ediv (Rat.num_nonneg.mpr hq) (by positivity),
        Int.tdiv_eq_ediv (by omega) hb.le, ← Rat.floor_def]
      have hbn : b = ((b.toNat : ℕ) : ℤ) := by omega
      rw [hbn, show (((b.toNat : ℕ) : ℤ) : ℚ) = ((b.toNat : ℕ) : ℚ) by push_cast; ring]
      exact Rat.floor_intCast_div_natCast (-a) b.toNat
    rw [h1, h2, Int.neg_tdiv, neg_neg]

lemma k_estimate_eq_pyInt (d : ℤ) :
    k_estimate d = pyInt (((d : ℚ) - epochQ) / synodicQ) := by
  have h : ((d : ℚ) - epochQ) / synodicQ =
      ((1000000000 * d - 2415021076998695 : ℤ) : ℚ) / ((29530588853 : ℤ) : ℚ) := by
    rw [epochQ, synodicQ, Rat.mkRat_eq_div, Rat.mkRat_eq_div]
    push_cast
    field_simp
    ring
  rw [h, pyInt_intCast_div _ _ (by norm_num), k_estimate]

lemma k_from_a11_eq_pyInt (a11 : ℤ) :
    k_from_a11 a11 = pyInt (1 / 2 + ((a11 : ℚ) - epochQ) / synodicQ) := by
  have h : (1 / 2 + ((a11 : ℚ) - epochQ) / synodicQ) =
      ((2000000000 * a11 - 4830042153997390 + 29530588853 : ℤ) : ℚ) /
        ((59061177706 : ℤ) : ℚ) := by
    rw [epochQ, synodicQ, Rat.mkRat_eq_div, Rat.mkRat_eq_div]
    push_cast
    field_simp
    ring
  rw [h, pyInt_intCast_div _ _ (by norm_num), k_from_a11]

lemma m11_k_eq_pyInt (off : ℤ) :
    m11_k off = pyInt ((off : ℚ) / synodicQ) := by
  have h : ((off : ℚ) / synodicQ) =
      ((1000000000 * off : ℤ) : ℚ) / ((29530588853 : ℤ) : ℚ) := by
    rw [synodicQ, Rat.mkRat_eq_div]
    push_cast
    field_simp
    ring
  rw [h, pyInt_intCast_div _ _ (by norm_num), m11_k]

lemma diff29_eq_pyInt (n : ℤ) : diff29 n = pyInt ((n : ℚ) / ((29 : ℤ) : ℚ)) := by
  rw [pyInt_intCast_div _ _ (by norm_num), diff29]

/-! Helper facts about truncating division. -/

lemma diff29_nonneg {n : ℤ} (h : 0 ≤ n) : 0 ≤ diff29 n := by
  rw [diff29, Int.tdiv_eq_ediv h (by norm_num)]
  omega

lemma diff29_le_13 {n : ℤ} (h : n ≤ 405) : diff29 n ≤ 13 := by
  rcases le_or_lt 0 n with hn | hn
  · rw [diff29, Int.tdiv_eq_ediv hn (by norm_num)]
    omega
  · have h2 : diff29 n = -((-n).tdiv 29) := by
      rw [diff29, show n = -(-n) by ring, Int.neg_tdiv, neg_neg]
    have h3 : 0 ≤ (-n).tdiv 29 := Int.tdiv_nonneg (by omega) (by norm_num)
    omega

/-! Structural facts about the `_leap_month_offset` scan loop. -/

lemma leap_scan_le (g : ℤ → ℚ) :
    ∀ (fuel : ℕ) (i : ℤ) (arc : ℚ), leap_scan g fuel i arc ≤ i + fuel - 1 := by
  intro fuel
  induction fuel with
  | zero => intro i arc; simp [leap_scan]
  | succ f ih =>
    intro i arc
    simp only [leap_scan]
    split
    · push_cast
      omega
    · have := ih (i + 1) (g (i + 1))
      push_cast at this ⊢
      omega

lemma leap_scan_ge (g : ℤ → ℚ) :
    ∀ (fuel : ℕ) (i : ℤ) (arc : ℚ), 1 ≤ fuel → i ≤ leap_scan g fuel i arc := by
  intro fuel
  induction fuel with
  | zero => omega
  | succ f ih =>
    intro i arc _
    simp only [leap_scan]
    split
    · omega
    · rcases Nat.eq_zero_or_pos f with hf | hf
      · subst hf
        simp [leap_scan]
      · have := ih (i + 1) (g (i + 1)) hf
        omega

/-- If every pair of consecutive scanned longitudes differs, the scan never
breaks on the equality sentinel and saturates at the counter bound,
returning 14. -/
lemma leap_scan_saturate (g : ℤ → ℚ)
    (h : ∀ n : ℕ, n < 14 → g (1 + n) ≠ g (2 + n)) :
    ∀ (fuel : ℕ) (i : ℤ), i = 15 - fuel → 1 ≤ fuel → fuel ≤ 14 →
      leap_scan g fuel i (g i) = 14 := by
  intro fuel
  induction fuel with
  | zero => omega
  | succ f ih =>
    intro i hi _ hle
    have hi1 : 1 ≤ i := by omega
    have hi14 : i ≤ 14 := by omega
    have hne : g (i + 1) ≠ g i := by
      have hcast1 : (1 : ℤ) + ((i - 1).toNat : ℤ) = i := by omega
      have hcast2 : (2 : ℤ) + ((i - 1).toNat : ℤ) = i + 1 := by omega
      have := h (i - 1).toNat (by omega)
      rw [hcast1, hcast2] at this
      exact fun he => this he.symm
    simp only [leap_scan]
    rcases Nat.eq_zero_or_pos f with hf | hf
    · subst hf
      have hi15 : i = 14 := by omega
      rw [if_pos (Or.inr (by omega))]
      omega
    · rw [if_neg]
      · have := ih (i + 1) (by omega) hf (by omega)
        exact this
      · push_neg
        exact ⟨hne, by omega⟩

/-- The hypothesis that the fourteen consecutive longitude pairs inspected by
the `_leap_month_offset` scan from anchor `a11` are all distinct.  This holds
for the program's real `_sun_longitude`: it returns the raw longitude in
[0, 2·pi) and consecutive new moons are about 29.5 days apart, so consecutive
values differ by roughly 0.5 radians. -/
def scan_distinct (A : Astro) (a11 tz : ℤ) : Prop :=
  ∀ n : ℕ, n < 14 → scan_g A a11 tz (1 + n) ≠ scan_g A a11 tz (2 + n)

instance (A : Astro) (a11 tz : ℤ) : Decidable (scan_distinct A a11 tz) := by
  unfold scan_distinct
  infer_instance

/-- Under `scan_distinct` the offset scan saturates and returns 14. -/
lemma leap_month_offset_of_distinct (A : Astro) (a11 tz : ℤ)
    (h : scan_distinct A a11 tz) : leap_month_offset A a11 tz = 14 := by
  rw [leap_month_offset]
  exact leap_scan_saturate (scan_g A a11 tz) h 14 1 (by norm_num) (by norm_num)
    (by norm_num)

/-- C6: `_leap_month_offset` always returns a value in [2, 14].  The upper
bound is unconditional (the loop breaks at the latest when its counter
reaches 15 and returns `15 - 1`).  The lower bound holds whenever the first
two scanned longitudes differ (the hypothesis `h`): returning 1 would require
the exact equality `_sun_longitude` at the first two new moons after the
anchor, which are about 29.5 days apart.  The claimed interval [2, 14] is
exactly the source comment on line 153. -/
theorem C6_leap_month_offset_range (A : Astro) (a11 tz : ℤ)
    (h : scan_g A a11 tz 2 ≠ scan_g A a11 tz 1) :
    2 ≤ leap_month_offset A a11 tz ∧ leap_month_offset A a11 tz ≤ 14 := by
  constructor
  · rw [leap_month_offset]
    simp only [leap_scan]
    rw [if_neg (by push_neg; exact ⟨by simpa using h, by omega⟩)]
    have := leap_scan_ge (scan_g A a11 tz) 13 (1 + 1) (scan_g A a11 tz (1 + 1))
      (by norm_num)
    omega
  · rw [leap_month_offset]
    have := leap_scan_le (scan_g A a11 tz) 14 1 (scan_g A a11 tz 1)
    push_cast at this
    omega

/-- Witness for C6 at the concrete oracle `meanAstro` and the anchor of
lunar year 2019. -/
theorem C6_leap_month_offset_range_witness :
    2 ≤ leap_month_offset meanAstro 2458431 7 ∧
      leap_month_offset meanAstro 2458431 7 ≤ 14 :=
  C6_leap_month_offset_range meanAstro 2458431 7 (by decide)

/-! The day-number round trip (claim C4) and its inverse direction. -/

set_option maxHeartbeats 1000000 in
/-- Core of the forward round trip: `_jd_to_date` applied to a JDN written in
the canonical century/year-in-century/day-in-year decomposition. -/
lemma fwd_core (g r dd K M : ℤ)
    (hr1 : 0 ≤ r) (hr2 : r ≤ 99)
    (hE1 : 0 ≤ dd + K - 1) (hE2 : dd + K - 1 ≤ 365)
    (hM : M = (5 * (dd + K - 1) + 2) / 153)
    (hKM : (153 * M + 2) / 5 = K)
    (hsp1 : dd + K - 1 = 365 → r % 4 = 3)
    (hsp2 : r = 99 → dd + K - 1 = 365 → g % 4 = 3) :
    jd_to_date (146097 * g / 4 + 1461 * r / 4 + (dd + K - 1) - 32044) =
      (dd, M + 3 - 12 * (M / 10), 100 * g + r - 4800 + M / 10) := by
  simp only [jd_to_date]
  rw [show (146097 * g / 4 + 1461 * r / 4 + (dd + K - 1) - 32044 + 32044 : ℤ)
      = 146097 * g / 4 + 1461 * r / 4 + (dd + K - 1) by ring]
  set A := 146097 * g / 4 + 1461 * r / 4 + (dd + K - 1) with hA
  have hq1 : 146097 * g / 4 = 36524 * g + g / 4 := by omega
  have hq2 : 1461 * r / 4 = 365 * r + r / 4 := by omega
  have hb : (4 * A + 3) / 146097 = g := by omega
  rw [hb]
  have hq3 : g * 146097 / 4 = 36524 * g + g / 4 := by omega
  have hc : A - g * 146097 / 4 = 365 * r + r / 4 + (dd + K - 1) := by omega
  rw [hc]
  have hd : (4 * (365 * r + r / 4 + (dd + K - 1)) + 3) / 1461 = r := by omega
  rw [hd]
  have he : 365 * r + r / 4 + (dd + K - 1) - 1461 * r / 4 = dd + K - 1 := by omega
  rw [he]
  rw [← hM, hKM]
  simp only [Prod.mk.injEq]
  exact ⟨by ring, by trivial, by ring⟩

/-- The Gregorian year-length term of `_jd_from_date` decomposed into
century and year-in-century contributions. -/
lemma year_split (y : ℤ) :
    365 * y + y / 4 - y / 100 + y / 400 = 146097 * (y / 100) / 4 + 1461 * (y % 100) / 4 := by
  have h1 : y / 400 = (y / 100) / 4 := by omega
  have h2 : 146097 * (y / 100) / 4 = 36524 * (y / 100) + (y / 100) / 4 := by omega
  have h3 : 1461 * (y % 100) / 4 = 365 * (y % 100) + (y % 100) / 4 := by omega
  have h4 : y / 4 = 25 * (y / 100) + (y % 100) / 4 := by omega
  omega

set_option maxHeartbeats 1000000 in
/-- Forward round trip for one month: `Mv` is the shifted month index
`m = mm + 12a - 3` of `_jd_from_date` and `K = (153 Mv + 2) / 5` its
day-of-year offset. -/
lemma fwd_gen (dd mm yy Mv K : ℤ)
    (hmv : Mv = mm + 12 * ((14 - mm) / 12) - 3)
    (hk : K = (153 * Mv + 2) / 5)
    (hm1 : 1 ≤ mm) (hm2 : mm ≤ 12)
    (hM : Mv = (5 * (dd + K - 1) + 2) / 153)
    (hE2 : dd + K - 1 ≤ 365)
    (hsp1 : dd + K - 1 = 365 → (yy + 4800 - (14 - mm) / 12) % 100 % 4 = 3)
    (hsp2 : (yy + 4800 - (14 - mm) / 12) % 100 = 99 → dd + K - 1 = 365 →
      (yy + 4800 - (14 - mm) / 12) / 100 % 4 = 3) :
    jd_to_date (jd_from_date dd mm yy) = (dd, mm, yy) := by
  have hsplit := year_split (yy + 4800 - (14 - mm) / 12)
  have harg : jd_from_date dd mm yy =
      146097 * ((yy + 4800 - (14 - mm) / 12) / 100) / 4 +
      1461 * ((yy + 4800 - (14 - mm) / 12) % 100) / 4 + (dd + K - 1) - 32044 := by
    simp only [jd_from_date]
    omega
  rw [harg, fwd_core ((yy + 4800 - (14 - mm) / 12) / 100)
    ((yy + 4800 - (14 - mm) / 12) % 100) dd K Mv (by omega) (by omega) (by omega)
    hE2 hM (by omega) hsp1 hsp2]
  simp only [Prod.mk.injEq]
  exact ⟨by trivial, by omega, by omega⟩

set_option maxHeartbeats 1000000 in
/-- C4: the day-number conversion round-trips: for every valid Gregorian
date (day, month, year) with the year in the supported range [1900, 2100],
`_jd_to_date(_jd_from_date(d, m, y)) == (d, m, y)`.  (The proof does not
actually use the year bounds: the identity holds for every valid proleptic
Gregorian date.) -/
theorem C4_jd_roundtrip (dd mm yy : ℤ) (_hy1 : 1900 ≤ yy) (_hy2 : yy ≤ 2100)
    (hm1 : 1 ≤ mm) (hm2 : mm ≤ 12) (hd1 : 1 ≤ dd) (hd2 : dd ≤ days_in_month mm yy) :
    jd_to_date (jd_from_date dd mm yy) = (dd, mm, yy) := by
  interval_cases mm
  · simp only [days_in_month] at hd2; norm_num at hd2
    exact fwd_gen dd 1 yy 10 306 (by norm_num) (by norm_num) (by norm_num) (by norm_num)
      (by omega) (by omega) (by omega) (by omega)
  · simp only [days_in_month] at hd2; norm_num at hd2
    have hd3 : dd ≤ 29 ∧ (dd = 29 → yy % 4 = 0 ∧ (yy % 100 = 0 → yy % 400 = 0)) := by
      split_ifs at hd2 with hL
      · exact ⟨hd2, fun _ => by omega⟩
      · exact ⟨by omega, fun h29 => by omega⟩
    exact fwd_gen dd 2 yy 11 337 (by norm_num) (by norm_num) (by norm_num) (by norm_num)
      (by omega) (by omega) (by omega) (by omega)
  · simp only [days_in_month] at hd2; norm_num at hd2
    exact fwd_gen dd 3 yy 0 0 (by norm_num) (by norm_num) (by norm_num) (by norm_num)
      (by omega) (by omega) (by omega) (by omega)
  · simp only [days_in_month] at hd2; norm_num at hd2
    exact fwd_gen dd 4 yy 1 31 (by norm_num) (by norm_num) (by norm_num) (by norm_num)
      (by omega) (by omega) (by omega) (by omega)
  · simp only [days_in_month] at hd2; norm_num at hd2
    exact fwd_gen dd 5 yy 2 61 (by norm_num) (by norm_num) (by norm_num) (by norm_num)
      (by omega) (by omega) (by omega) (by omega)
  · simp only [days_in_month] at hd2; norm_num at hd2
    exact fwd_gen dd 6 yy 3 92 (by norm_num) (by norm_num) (by norm_num) (by norm_num)
      (by omega) (by omega) (by omega) (by omega)
  · simp only [days_in_month] at hd2; norm_num at hd2
    exact fwd_gen dd 7 yy 4 122 (by norm_num) (by norm_num) (by norm_num) (by norm_num)
      (by omega) (by omega) (by omega) (by omega)
  · simp only [days_in_month] at hd2; norm_num at hd2
    exact fwd_gen dd 8 yy 5 153 (by norm_num) (by norm_num) (by norm_num) (by norm_num)
      (by omega) (by omega) (by omega) (by omega)
  · simp only [days_in_month] at hd2; norm_num at hd2
    exact fwd_gen dd 9 yy 6 184 (by norm_num) (by norm_num) (by norm_num) (by norm_num)
      (by omega) (by omega) (by omega) (by omega)
  · simp only [days_in_month] at hd2; norm_num at hd2
    exact fwd_gen dd 10 yy 7 214 (by norm_num) (by norm_num) (by norm_num) (by norm_num)
      (by omega) (by omega) (by omega) (by omega)
  · simp only [days_in_month] at hd2; norm_num at hd2
    exact fwd_gen dd 11 yy 8 245 (by norm_num) (by norm_num) (by norm_num) (by norm_num)
      (by omega) (by omega) (by omega) (by omega)
  · simp only [days_in_month] at hd2; norm_num at hd2
    exact fwd_gen dd 12 yy 9 275 (by norm_num) (by norm_num) (by norm_num) (by norm_num)
      (by omega) (by omega) (by omega) (by omega)

/-- Witness for C4 at the concrete date 1990-05-15. -/
theorem C4_jd_roundtrip_witness : jd_to_date (jd_from_date 15 5 1990) = (15, 5, 1990) :=
  C4_jd_roundtrip 15 5 1990 (by norm_num) (by norm_num) (by norm_num) (by norm_num)
    (by norm_num) (by decide)

set_option maxHeartbeats 2000000 in
/-- Inverse direction of the day-number round trip, for every integer JDN:
needed to measure day differences of `lunar_to_solar` outputs on the JDN
timeline. -/
lemma jd_from_to_id (j : ℤ) :
    jd_from_date (jd_to_date j).1 (jd_to_date j).2.1 (jd_to_date j).2.2 = j := by
  simp only [jd_from_date, jd_to_date]
  set a := j + 32044 with ha
  set b := (4 * a + 3) / 146097 with hb
  set c := a - (b * 146097) / 4 with hc
  set d := (4 * c + 3) / 1461 with hd
  set e := c - (1461 * d) / 4 with he
  set m := (5 * e + 2) / 153 with hm
  have hcb : 0 ≤ c ∧ c ≤ 36524 := by omega
  have hdb : 0 ≤ d ∧ d ≤ 99 := by omega
  have hed : 0 ≤ e ∧ e ≤ 365 := by omega
  have hm0 : 0 ≤ m := by omega
  have hm1 : m ≤ 11 := by omega
  have q1 : (b * 146097) / 4 = 36524 * b + b / 4 := by omega
  have q2 : (1461 * d) / 4 = 365 * d + d / 4 := by omega
  have q3 : (b * 100 + d) / 100 = b := by omega
  have q4 : (b * 100 + d) / 4 = 25 * b + d / 4 := by omega
  have q5 : (b * 100 + d) / 400 = b / 4 := by omega
  clear_value m
  interval_cases m <;>
    (norm_num;
     try rw [show (b * 100 + d - 4800 + 1 + 4800 - 1 : ℤ) = b * 100 + d by ring];
     omega)

/-- C9: time-of-day (and timezone-awareness) does not influence
`solar_to_lunar`: two datetime inputs with the same calendar date give
identical results, for every astronomy oracle. -/
theorem C9_time_of_day_ignored (A : Astro) (dt1 dt2 : PyDateTime)
    (hy : dt1.year = dt2.year) (hm : dt1.month = dt2.month)
    (hd : dt1.day = dt2.day) :
    solar_to_lunar A dt1 = solar_to_lunar A dt2 := by
  obtain ⟨y1, m1, d1, hh1, mi1, s1, t1⟩ := dt1
  obtain ⟨y2, m2, d2, hh2, mi2, s2, t2⟩ := dt2
  simp only at hy hm hd
  subst hy
  subst hm
  subst hd
  rfl

/-- Witness for C9: 1990-05-15 09:30 naive versus 1990-05-15 23:59:01
timezone-aware. -/
theorem C9_time_of_day_ignored_witness :
    solar_to_lunar meanAstro ⟨1990, 5, 15, 9, 30, 0, false⟩ =
      solar_to_lunar meanAstro ⟨1990, 5, 15, 23, 59, 1, true⟩ :=
  C9_time_of_day_ignored meanAstro _ _ rfl rfl rfl

/-- C10: `lunar_to_solar` is affine in the lunar day: whenever two calls
differing only in the (positive) day both return a date, the two Gregorian
results differ by exactly `d1 - d2` days on the JDN timeline.  In
particular the day is used only arithmetically (`jdn = month_start +
lunar_day - 1`, source line 255) with no upper-bound check against the
month length. -/
theorem C10_day_affine (A : Astro) (ly lm : ℤ) (il : Bool) (d1 d2 : ℤ)
    (_hd1 : 0 < d1) (_hd2 : 0 < d2) (g1 g2 : PyDate)
    (e1 : lunar_to_solar A ly lm d1 il = .ok g1)
    (e2 : lunar_to_solar A ly lm d2 il = .ok g2) :
    jd_from_date g1.day g1.month g1.year - jd_from_date g2.day g2.month g2.year
      = d1 - d2 := by
  rw [lunar_to_solar] at e1 e2
  by_cases hy : ly < 1 ∨ 9999 < ly
  · rw [if_pos hy] at e1
    exact absurd e1 (by simp)
  rw [if_neg hy] at e1 e2
  rcases hstep : lts_step A ly lm il with e | off
  · rw [hstep] at e1
    exact absurd e1 (by simp)
  rw [hstep] at e1 e2
  simp only at e1 e2
  by_cases hr1 : (jd_to_date (lts_month_start A ly lm off + d1 - 1)).2.2 < 1 ∨
      9999 < (jd_to_date (lts_month_start A ly lm off + d1 - 1)).2.2
  · rw [if_pos hr1] at e1
    exact absurd e1 (by simp)
  by_cases hr2 : (jd_to_date (lts_month_start A ly lm off + d2 - 1)).2.2 < 1 ∨
      9999 < (jd_to_date (lts_month_start A ly lm off + d2 - 1)).2.2
  · rw [if_pos hr2] at e2
    exact absurd e2 (by simp)
  rw [if_neg hr1] at e1
  rw [if_neg hr2] at e2
  have hg1 : g1 = ⟨(jd_to_date (lts_month_start A ly lm off + d1 - 1)).2.2,
      (jd_to_date (lts_month_start A ly lm off + d1 - 1)).2.1,
      (jd_to_date (lts_month_start A ly lm off + d1 - 1)).1⟩ := by
    cases e1
    rfl
  have hg2 : g2 = ⟨(jd_to_date (lts_month_start A ly lm off + d2 - 1)).2.2,
      (jd_to_date (lts_month_start A ly lm off + d2 - 1)).2.1,
      (jd_to_date (lts_month_start A ly lm off + d2 - 1)).1⟩ := by
    cases e2
    rfl
  rw [hg1, hg2]
  simp only
  rw [jd_from_to_id, jd_from_to_id]
  ring

/-- Witness for C10: lunar (1990, 4, 21) and (1990, 4, 1) under `meanAstro`
map to Gregorian dates exactly 20 days apart. -/
theorem C10_day_affine_witness :
    jd_from_date (15 : ℤ) 5 1990 - jd_from_date 25 4 1990 = 21 - 1 :=
  C10_day_affine meanAstro 1990 4 false 21 1 (by norm_num) (by norm_num)
    ⟨1990, 5, 15⟩ ⟨1990, 4, 25⟩ (by decide) (by decide)

/-! Behavior of the backward converter's leap branch (claims C2, C3). -/

/-- When the chosen anchors span at most 365 days, the leap branch of
`lunar_to_solar` is skipped entirely: the leap flag is never checked and the
offset is returned unchanged. -/
lemma lts_step_small_gap (A : Astro) (ly lm : ℤ) (il : Bool)
    (h : lts_b11 A ly lm - lts_a11 A ly lm ≤ 365) :
    lts_step A ly lm il = .ok (lts_off1 lm) := by
  rw [lts_step, if_neg (by omega)]

/-- The lunation offset used by `lunar_to_solar` when `is_leap` is false. -/
def lts_off_nonleap (A : Astro) (ly lm : ℤ) : ℤ :=
  if 365 < lts_b11 A ly lm - lts_a11 A ly lm then
    (if leap_month_offset A (lts_a11 A ly lm) (lts_tz A ly lm) ≤ lts_off1 lm then
      lts_off1 lm + 1
    else lts_off1 lm)
  else lts_off1 lm

/-- With `is_leap = false` the step never raises. -/
lemma lts_step_false (A : Astro) (ly lm : ℤ) :
    lts_step A ly lm false = .ok (lts_off_nonleap A ly lm) := by
  rw [lts_step, lts_off_nonleap]
  by_cases hb : 365 < lts_b11 A ly lm - lts_a11 A ly lm
  · rw [if_pos hb, if_pos hb, if_neg (by simp)]
    simp
  · rw [if_neg hb, if_neg hb]

/-- C2: how the leap-flag check actually behaves, for every oracle whose
scanned longitudes are pairwise distinct (as the real raw-radian longitudes
are, advancing about 0.5 rad per lunation, which forces
`_leap_month_offset` to saturate at 14 so that `leap = 13` can never equal
the offset of a month in [1, 12]):
whenever the code's own two month-11 anchors span more than 365 days
(`b11 - a11 > 365`) every `is_leap = true` request raises `ValueError`,
even for the year's actual inserted month (e.g. real-calendar
`(2014, 9, true)`, whose anchors Nov 3 2013 / Nov 22 2014 are 384 days
apart although leap-9/2014 is the real inserted month), while whenever the
anchors span at most 365 days the flag is never examined and an
inconsistent `is_leap = true` is silently accepted (e.g. real-calendar
`(2017, 3, true)`: the `>= pi` test displaces both anchors to
Nov 29 2016 / Nov 18 2017, 354 days, hiding that lunar 2017 really has 13
lunations with inserted month 6).  Both directions contradict the claim
that the call fails exactly on inconsistent leap requests. -/
theorem C2_leap_flag_check (A : Astro) (ly lm ld : ℤ)
    (hy1 : 1 ≤ ly) (hy2 : ly ≤ 9999) (hm1 : 1 ≤ lm) (hm2 : lm ≤ 12)
    (hscan : scan_distinct A (lts_a11 A ly lm) (lts_tz A ly lm)) :
    (365 < lts_b11 A ly lm - lts_a11 A ly lm →
      lunar_to_solar A ly lm ld true = .error invalidLeapMsg) ∧
    (lts_b11 A ly lm - lts_a11 A ly lm ≤ 365 →
      lunar_to_solar A ly lm ld true ≠ .error invalidLeapMsg) := by
  constructor
  · intro hgap
    have hstep : lts_step A ly lm true = .error invalidLeapMsg := by
      rw [lts_step, if_pos hgap, leap_month_offset_of_distinct A _ _ hscan,
        if_pos]
      refine ⟨rfl, ?_⟩
      rw [lts_off1]
      split_ifs <;> omega
    rw [lunar_to_solar, if_neg (by omega), hstep]
  · intro hle
    rw [lunar_to_solar, if_neg (by omega), lts_step_small_gap A ly lm true hle]
    simp only
    split_ifs
    · rw [invalidLeapMsg, dateRangeMsg]
      simp
    · simp

/-- Witness for C2 at `meanAstro`: lunar year 2019 has a 13-lunation anchor
span (384 days), so the leap request errors; the 365-bound direction is
vacuous there. -/
theorem C2_leap_flag_check_witness :
    (365 < lts_b11 meanAstro 2019 5 - lts_a11 meanAstro 2019 5 →
      lunar_to_solar meanAstro 2019 5 1 true = .error invalidLeapMsg) ∧
    (lts_b11 meanAstro 2019 5 - lts_a11 meanAstro 2019 5 ≤ 365 →
      lunar_to_solar meanAstro 2019 5 1 true ≠ .error invalidLeapMsg) :=
  C2_leap_flag_check meanAstro 2019 5 1 (by norm_num) (by norm_num) (by norm_num)
    (by norm_num) (by decide)

-- Concrete illustration of the second direction of C2 (12-lunation anchor
-- span, 2017-11 to 2018-11 under `meanAstro`): the inconsistent leap request
-- is silently accepted and a date is returned.
example : lunar_to_solar meanAstro 2018 5 1 true = .ok ⟨2018, 5, 15⟩ := by decide

/-- C3 counterexample: the out-of-domain request month 13, day 0 is not
rejected; the full astronomical pipeline runs and a Gregorian date is
returned. -/
theorem C3_counterexample :
    lunar_to_solar meanAstro 2000 13 0 false = .ok ⟨2001, 1, 23⟩ := by decide

/-- C3 (amended): `lunar_to_solar` performs no range validation of the lunar
month or day.  For every oracle and every input with `is_leap = false` whose
month is outside [1, 12] or whose day is non-positive, as long as the two
Python `date` constructors do not reject their year argument, the call
returns the Gregorian date obtained by running the astronomical pipeline on
the out-of-domain values. -/
theorem C3_no_input_validation (A : Astro) (ly lm ld : ℤ)
    (hy1 : 1 ≤ ly) (hy2 : ly ≤ 9999)
    (_hbad : lm < 1 ∨ 12 < lm ∨ ld ≤ 0)
    (hyr1 : 1 ≤ (jd_to_date (lts_month_start A ly lm (lts_off_nonleap A ly lm) + ld - 1)).2.2)
    (hyr2 : (jd_to_date (lts_month_start A ly lm (lts_off_nonleap A ly lm) + ld - 1)).2.2 ≤ 9999) :
    lunar_to_solar A ly lm ld false =
      .ok ⟨(jd_to_date (lts_month_start A ly lm (lts_off_nonleap A ly lm) + ld - 1)).2.2,
           (jd_to_date (lts_month_start A ly lm (lts_off_nonleap A ly lm) + ld - 1)).2.1,
           (jd_to_date (lts_month_start A ly lm (lts_off_nonleap A ly lm) + ld - 1)).1⟩ := by
  rw [lunar_to_solar, if_neg (by omega), lts_step_false]
  simp only
  rw [if_neg (by omega)]

/-- Witness for C3's amended theorem at the counterexample input. -/
theorem C3_no_input_validation_witness :
    lunar_to_solar meanAstro 2000 13 0 false =
      .ok ⟨(jd_to_date (lts_month_start meanAstro 2000 13 (lts_off_nonleap meanAstro 2000 13) + 0 - 1)).2.2,
           (jd_to_date (lts_month_start meanAstro 2000 13 (lts_off_nonleap meanAstro 2000 13) + 0 - 1)).2.1,
           (jd_to_date (lts_month_start meanAstro 2000 13 (lts_off_nonleap meanAstro 2000 13) + 0 - 1)).1⟩ :=
  C3_no_input_validation meanAstro 2000 13 0 (by norm_num) (by norm_num)
    (Or.inr (Or.inl (by norm_num))) (by decide) (by decide)

/-! The leap flag and range invariants of the forward converter
(claims C5, C7). -/

/-- When the offset scan saturates (pairwise-distinct longitudes) and
`diff <= 13`, the leap branch of `solar_to_lunar` can neither shift the
month nor set the flag. -/
lemma stl_month_leap_nonleap (A : Astro) (dt : PyDateTime)
    (hscan : scan_distinct A (stl_a11 A dt) (stl_tz A dt))
    (hdiff : stl_diff A dt ≤ 13) :
    stl_month_leap A dt = (stl_diff A dt + 11, false) := by
  rw [stl_month_leap]
  by_cases hb : 365 < stl_b11 A dt - stl_a11 A dt
  · rw [if_pos hb, leap_month_offset_of_distinct A _ _ hscan, if_neg (by omega)]
  · rw [if_neg hb]

/-- The distance between the two consecutive month-11 anchors that bracket
the input date's lunar year: in the `a11 >= month_start` branch these are
the anchors of years `yy - 1` and `yy` (note the code's own `b11 - a11`
guard instead compares the anchors of `yy - 1` and `yy + 1` there), else
the anchors of `yy` and `yy + 1`. -/
def stl_bracket_gap (A : Astro) (dt : PyDateTime) : ℤ :=
  if stl_month_start A dt ≤ stl_a11_first A dt then
    stl_a11_first A dt - lunar_month11 A (dt.year - 1) (stl_tz A dt)
  else stl_b11 A dt - stl_a11_first A dt

/-- C5: `solar_to_lunar` never returns `is_leap = true` for a date whose
lunar year's consecutive month-11 anchors are at most 365 days apart.
Stated for every oracle whose scanned longitudes are pairwise distinct
(`scan_distinct`, true of the real raw-radian longitudes). -/
theorem C5_no_leap_flag_in_short_year (A : Astro) (dt : PyDateTime)
    (hscan : scan_distinct A (stl_a11 A dt) (stl_tz A dt))
    (hgap : stl_bracket_gap A dt ≤ 365) :
    (solar_to_lunar A dt).is_leap = false := by
  have hleap : (stl_month_leap A dt).2 = false := by
    by_cases hbr : stl_month_start A dt ≤ stl_a11_first A dt
    · have ha : stl_a11 A dt = lunar_month11 A (dt.year - 1) (stl_tz A dt) := by
        rw [stl_a11, if_pos hbr]
      rw [stl_bracket_gap, if_pos hbr] at hgap
      have hdiff : stl_diff A dt ≤ 13 := by
        rw [stl_diff]
        exact diff29_le_13 (by omega)
      rw [stl_month_leap_nonleap A dt hscan hdiff]
    · have ha : stl_a11 A dt = stl_a11_first A dt := by
        rw [stl_a11, if_neg hbr]
      rw [stl_bracket_gap, if_neg hbr] at hgap
      rw [stl_month_leap, if_neg (by omega)]
  simpa [solar_to_lunar] using hleap

/-- Witness for C5 at 1990-05-15 under `meanAstro` (a 354-day lunar
year). -/
theorem C5_no_leap_flag_in_short_year_witness :
    (solar_to_lunar meanAstro ⟨1990, 5, 15, 9, 30, 0, false⟩).is_leap = false :=
  C5_no_leap_flag_in_short_year meanAstro ⟨1990, 5, 15, 9, 30, 0, false⟩
    (by decide) (by decide)

/-- C7: range invariant of `solar_to_lunar` results.  For every oracle
satisfying, at the input date, the astronomical side conditions that the
real series guarantee — the estimated lunation is not after the date
(`h1`), the date falls before the second next new moon (`h2`), the two
relevant lunations last at most 30 days (`h3`, `h4`), the anchor is at most
405 days before the month start (`h5`, `h6`), and the scanned longitudes
are pairwise distinct (`hscan`) — the returned lunar month lies in [1, 12]
and the returned lunar day in [1, 30]. -/
theorem C7_result_ranges (A : Astro) (dt : PyDateTime)
    (hscan : scan_distinct A (stl_a11 A dt) (stl_tz A dt))
    (h1 : A.new_moon_day (stl_k dt) (stl_tz A dt) ≤ stl_day_number dt)
    (h2 : stl_day_number dt < A.new_moon_day (stl_k dt + 2) (stl_tz A dt))
    (h3 : A.new_moon_day (stl_k dt + 1) (stl_tz A dt)
        - A.new_moon_day (stl_k dt) (stl_tz A dt) ≤ 30)
    (h4 : A.new_moon_day (stl_k dt + 2) (stl_tz A dt)
        - A.new_moon_day (stl_k dt + 1) (stl_tz A dt) ≤ 30)
    (h5 : stl_a11 A dt ≤ stl_month_start A dt)
    (h6 : stl_month_start A dt - stl_a11 A dt ≤ 405) :
    1 ≤ (solar_to_lunar A dt).lunar_month ∧ (solar_to_lunar A dt).lunar_month ≤ 12 ∧
    1 ≤ (solar_to_lunar A dt).lunar_day ∧ (solar_to_lunar A dt).lunar_day ≤ 30 := by
  have hdiff0 : 0 ≤ stl_diff A dt := by
    rw [stl_diff]
    exact diff29_nonneg (by omega)
  have hdiff13 : stl_diff A dt ≤ 13 := by
    rw [stl_diff]
    exact diff29_le_13 (by omega)
  have hml := stl_month_leap_nonleap A dt hscan hdiff13
  have hmonth : (solar_to_lunar A dt).lunar_month =
      (if 12 < stl_diff A dt + 11 then stl_diff A dt + 11 - 12
       else stl_diff A dt + 11) := by
    simp only [solar_to_lunar, hml]
  have hday : (solar_to_lunar A dt).lunar_day =
      stl_day_number dt - stl_month_start A dt + 1 := by
    simp only [solar_to_lunar]
  have hdaybounds : 1 ≤ stl_day_number dt - stl_month_start A dt + 1 ∧
      stl_day_number dt - stl_month_start A dt + 1 ≤ 30 := by
    rw [stl_month_start] at *
    by_cases hov : stl_day_number dt < A.new_moon_day (stl_k dt + 1) (stl_tz A dt)
    · rw [if_pos hov] at *
      omega
    · rw [if_neg hov] at *
      omega
  rw [hmonth, hday]
  split_ifs <;> omega

/-- Witness for C7 at 1990-05-15 under `meanAstro`. -/
theorem C7_result_ranges_witness :
    1 ≤ (solar_to_lunar meanAstro ⟨1990, 5, 15, 9, 30, 0, false⟩).lunar_month ∧
    (solar_to_lunar meanAstro ⟨1990, 5, 15, 9, 30, 0, false⟩).lunar_month ≤ 12 ∧
    1 ≤ (solar_to_lunar meanAstro ⟨1990, 5, 15, 9, 30, 0, false⟩).lunar_day ∧
    (solar_to_lunar meanAstro ⟨1990, 5, 15, 9, 30, 0, false⟩).lunar_day ≤ 30 :=
  C7_result_ranges meanAstro ⟨1990, 5, 15, 9, 30, 0, false⟩ (by decide) (by decide)
    (by decide) (by decide) (by decide) (by decide) (by decide)

/-- C1: demonstration that the algorithm does not satisfy the
solar→lunar→solar round-trip law.  Under the mean-motion oracle the anchor
span 2018→2019 contains 13 lunations; 2019-11-10 falls in the 13th
lunation, which the forward converter labels month 11 of 2019 (the leap
branch cannot fire: the raw-longitude equality sentinel never triggers
under distinct longitudes, see C2/C6), while the backward converter anchors
month 11 of 2019 at the NEXT month-11 anchor — so the round trip lands one
lunation later, on 2019-12-10. -/
theorem C1_roundtrip_fails :
    solar_to_lunar meanAstro ⟨2019, 11, 10, 0, 0, 0, false⟩ =
      ⟨2019, 11, 14, false⟩ ∧
    lunar_to_solar meanAstro 2019 11 14 false = .ok ⟨2019, 12, 10⟩ :=
  ⟨by decide, by decide⟩

/-! Monotonicity of `_new_moon_day` in the lunation index (claim C8).

`_new_moon_day` (`lunar.py` lines 78-113) is transcribed below over exact
rationals, one definition per Python local.  Lean's decimal literals are
exact on `ℚ`, so every constant is the exact decimal written in the source;
`math.sin` is abstracted as a parameter `s : ℚ → ℚ`, and the theorems
assume only `-1 ≤ s x ≤ 1`, which is true of the real sine.  The source
computes `T2 = T * T` and `T3 = T2 * T`; those locals are inlined as the
products they stand for. -/

/-- `T = k / 1236.85` of `_new_moon_day`. -/
def nm_T (k : ℤ) : ℚ := (k : ℚ) / 1236.85

/-- `dr = 3.141592653589793 / 180.0` (degrees to radians). -/
def nm_dr : ℚ := 3.141592653589793 / 180

/-- The argument of the sine correction added to `Jd1`. -/
def nm_Jd1_arg (k : ℤ) : ℚ :=
  (166.56 + 132.87 * nm_T k - 0.009173 * (nm_T k * nm_T k)) * nm_dr

/-- `Jd1` after both of its assignments: mean new moon plus the
`0.00033 * sin(...)` correction. -/
def nm_Jd1 (s : ℚ → ℚ) (k : ℤ) : ℚ :=
  2415020.75933 + 29.53058868 * (k : ℚ) + 0.0001178 * (nm_T k * nm_T k)
    - 0.000000155 * (nm_T k * nm_T k * nm_T k)
    + 0.00033 * s (nm_Jd1_arg k)

/-- `M` (sun's mean anomaly argument). -/
def nm_M (k : ℤ) : ℚ :=
  359.2242 + 29.10535608 * (k : ℚ) - 0.0000333 * (nm_T k * nm_T k)
    - 0.00000347 * (nm_T k * nm_T k * nm_T k)

/-- `Mpr` (moon's mean anomaly argument). -/
def nm_Mpr (k : ℤ) : ℚ :=
  306.0253 + 385.81691806 * (k : ℚ) + 0.0107306 * (nm_T k * nm_T k)
    + 0.00001236 * (nm_T k * nm_T k * nm_T k)

/-- `F` (moon's argument of latitude). -/
def nm_F (k : ℤ) : ℚ :=
  21.2964 + 390.67050646 * (k : ℚ) - 0.0016528 * (nm_T k * nm_T k)
    - 0.00000239 * (nm_T k * nm_T k * nm_T k)

/-- `C1`, the sum of the thirteen periodic sine corrections. -/
def nm_C1 (s : ℚ → ℚ) (k : ℤ) : ℚ :=
  (0.1734 - 0.000393 * nm_T k) * s (nm_M k * nm_dr)
    + 0.0021 * s (2 * nm_M k * nm_dr)
    - 0.4068 * s (nm_Mpr k * nm_dr)
    + 0.0161 * s (2 * nm_Mpr k * nm_dr)
    - 0.0004 * s (3 * nm_Mpr k * nm_dr)
    + 0.0104 * s (2 * nm_F k * nm_dr)
    - 0.0051 * s ((nm_M k + nm_Mpr k) * nm_dr)
    - 0.0074 * s ((nm_M k - nm_Mpr k) * nm_dr)
    + 0.0004 * s ((2 * nm_F k + nm_M k) * nm_dr)
    - 0.0004 * s ((2 * nm_F k - nm_M k) * nm_dr)
    - 0.0006 * s ((2 * nm_F k + nm_Mpr k) * nm_dr)
    + 0.0010 * s ((2 * nm_F k - nm_Mpr k) * nm_dr)
    + 0.0005 * s ((2 * nm_M k + nm_Mpr k) * nm_dr)

/-- `deltat`, including the `T < -11` branch (unreachable for `k ≥ 0`, i.e.
for every new moon from 1900 on, but transcribed nonetheless). -/
def nm_deltat (k : ℤ) : ℚ :=
  if nm_T k < -11 then
    0.001 + 0.000839 * nm_T k + 0.0002261 * (nm_T k * nm_T k)
      - 0.00000845 * (nm_T k * nm_T k * nm_T k)
      - 0.000000081 * nm_T k * (nm_T k * nm_T k * nm_T k)
  else -0.000278 + 0.000265 * nm_T k + 0.000262 * (nm_T k * nm_T k)

/-- `_new_moon_day(k, tz)` over exact rationals with sine oracle `s`:
`JdNew = Jd1 + C1 - deltat`, returned as
`int(floor(JdNew + 0.5 + tz / 24.0))`. -/
def new_moon_day_q (s : ℚ → ℚ) (k tz : ℤ) : ℤ :=
  ⌊nm_Jd1 s k + nm_C1 s k - nm_deltat k + 0.5 + (tz : ℚ) / 24⌋

lemma nm_T_nonneg {k : ℤ} (hk : 0 ≤ k) : 0 ≤ nm_T k := by
  rw [nm_T]
  apply div_nonneg _ (by norm_num)
  exact_mod_cast hk

lemma nm_T_le {k : ℤ} (hk : k ≤ 3001) : nm_T k ≤ 2.43 := by
  rw [nm_T, div_le_iff₀ (by norm_num)]
  have : (k : ℚ) ≤ 3001 := by exact_mod_cast hk
  linarith

lemma nm_T_succ (k : ℤ) : nm_T (k + 1) = nm_T k + 1 / 1236.85 := by
  rw [nm_T, nm_T]
  push_cast
  ring

lemma nm_T_sq_bounds {k : ℤ} (hk1 : 0 ≤ k) (hk2 : k ≤ 3001) :
    0 ≤ nm_T k * nm_T k ∧ nm_T k * nm_T k ≤ 5.91 := by
  have h0 := nm_T_nonneg hk1
  have h1 := nm_T_le hk2
  constructor
  · positivity
  · nlinarith [mul_nonneg h0 (by linarith : (0 : ℚ) ≤ 2.43 - nm_T k)]

/-- For `k ≥ 0` the `deltat` correction is tiny: it lies in
`[-0.0003, 0.0025]`. -/
lemma nm_deltat_bound {k : ℤ} (hk1 : 0 ≤ k) (hk2 : k ≤ 3001) :
    -0.0003 ≤ nm_deltat k ∧ nm_deltat k ≤ 0.0025 := by
  have h0 := nm_T_nonneg hk1
  have h1 := nm_T_le hk2
  have h2 := nm_T_sq_bounds hk1 hk2
  rw [nm_deltat, if_neg (by linarith)]
  constructor <;> linarith

/-- The periodic correction `C1` is bounded by the sum of the absolute
values of its coefficients (`0.1734 + 0.4512 = 0.6246 < 0.67`), for every
`[-1, 1]`-bounded sine oracle. -/
lemma nm_C1_bound (s : ℚ → ℚ) (hs1 : ∀ x, -1 ≤ s x) (hs2 : ∀ x, s x ≤ 1)
    {k : ℤ} (hk1 : 0 ≤ k) (hk2 : k ≤ 3001) :
    -0.67 ≤ nm_C1 s k ∧ nm_C1 s k ≤ 0.67 := by
  have h0 := nm_T_nonneg hk1
  have h1 := nm_T_le hk2
  have hc1 : (0 : ℚ) ≤ 0.1734 - 0.000393 * nm_T k := by linarith
  have hc2 : (0.1734 : ℚ) - 0.000393 * nm_T k ≤ 0.1734 := by linarith
  have hterm1a : (0.1734 - 0.000393 * nm_T k) * s (nm_M k * nm_dr) ≤ 0.1734 := by
    nlinarith [mul_nonneg hc1 (by linarith [hs2 (nm_M k * nm_dr)] :
      (0 : ℚ) ≤ 1 - s (nm_M k * nm_dr))]
  have hterm1b : -(0.1734 : ℚ) ≤ (0.1734 - 0.000393 * nm_T k) * s (nm_M k * nm_dr) := by
    nlinarith [mul_nonneg hc1 (by linarith [hs1 (nm_M k * nm_dr)] :
      (0 : ℚ) ≤ 1 + s (nm_M k * nm_dr))]
  rw [nm_C1]
  constructor <;>
    linarith [hterm1a, hterm1b,
      hs1 (2 * nm_M k * nm_dr), hs2 (2 * nm_M k * nm_dr),
      hs1 (nm_Mpr k * nm_dr), hs2 (nm_Mpr k * nm_dr),
      hs1 (2 * nm_Mpr k * nm_dr), hs2 (2 * nm_Mpr k * nm_dr),
      hs1 (3 * nm_Mpr k * nm_dr), hs2 (3 * nm_Mpr k * nm_dr),
      hs1 (2 * nm_F k * nm_dr), hs2 (2 * nm_F k * nm_dr),
      hs1 ((nm_M k + nm_Mpr k) * nm_dr), hs2 ((nm_M k + nm_Mpr k) * nm_dr),
      hs1 ((nm_M k - nm_Mpr k) * nm_dr), hs2 ((nm_M k - nm_Mpr k) * nm_dr),
      hs1 ((2 * nm_F k + nm_M k) * nm_dr), hs2 ((2 * nm_F k + nm_M k) * nm_dr),
      hs1 ((2 * nm_F k - nm_M k) * nm_dr), hs2 ((2 * nm_F k - nm_M k) * nm_dr),
      hs1 ((2 * nm_F k + nm_Mpr k) * nm_dr), hs2 ((2 * nm_F k + nm_Mpr k) * nm_dr),
      hs1 ((2 * nm_F k - nm_Mpr k) * nm_dr), hs2 ((2 * nm_F k - nm_Mpr k) * nm_dr),
      hs1 ((2 * nm_M k + nm_Mpr k) * nm_dr), hs2 ((2 * nm_M k + nm_Mpr k) * nm_dr)]

/-- One lunation advances the mean part `Jd1` by at least 29.52 days: the
mean step is 29.53058868, the quadratic term only grows for `k ≥ 0`, the
cubic term shrinks it by less than `3e-9`, and the sine correction changes
by at most `2 * 0.00033`. -/
lemma nm_Jd1_diff_lower (s : ℚ → ℚ) (hs1 : ∀ x, -1 ≤ s x) (hs2 : ∀ x, s x ≤ 1)
    {k : ℤ} (hk1 : 0 ≤ k) (hk2 : k ≤ 3000) :
    29.52 ≤ nm_Jd1 s (k + 1) - nm_Jd1 s k := by
  have h0 := nm_T_nonneg hk1
  have h1 := nm_T_le (by omega : k ≤ 3001)
  have hsq := nm_T_sq_bounds hk1 (by omega : k ≤ 3001)
  have hxa1 := hs1 (nm_Jd1_arg k)
  have hxa2 := hs2 (nm_Jd1_arg k)
  have hxb1 := hs1 (nm_Jd1_arg (k + 1))
  have hxb2 := hs2 (nm_Jd1_arg (k + 1))
  rw [nm_Jd1, nm_Jd1, nm_T_succ k]
  have e2 : (nm_T k + 1 / 1236.85) * (nm_T k + 1 / 1236.85)
      = nm_T k * nm_T k + 2 * (1 / 1236.85) * nm_T k + (1 / 1236.85) * (1 / 1236.85) := by
    ring
  have e3 : (nm_T k + 1 / 1236.85) * (nm_T k + 1 / 1236.85) * (nm_T k + 1 / 1236.85)
      = nm_T k * nm_T k * nm_T k + 3 * (1 / 1236.85) * (nm_T k * nm_T k)
        + 3 * ((1 / 1236.85) * (1 / 1236.85)) * nm_T k
        + (1 / 1236.85) * (1 / 1236.85) * (1 / 1236.85) := by
    ring
  rw [e3, e2]
  push_cast
  linarith

/-- C8: `_new_moon_day` is monotone in the lunation index `k`.  Stated for
the exact-rational transcription `new_moon_day_q` with `math.sin`
abstracted as any function `s` bounded by `[-1, 1]` (true of the real
sine), for every timezone offset, and for every `k` with `0 ≤ k ≤ 3000`
(`k = 0` is the January 1900 new moon and `k = 3000` falls in 2142, so
this covers the supported 1900-2100 range).  The floor argument grows by
at least `29.52 - 2 * 0.67 - 0.0028 > 28` per lunation, so the floors
cannot decrease. -/
theorem C8_new_moon_monotone (s : ℚ → ℚ) (hs1 : ∀ x, -1 ≤ s x) (hs2 : ∀ x, s x ≤ 1)
    (k tz : ℤ) (hk1 : 0 ≤ k) (hk2 : k ≤ 3000) :
    new_moon_day_q s k tz ≤ new_moon_day_q s (k + 1) tz := by
  rw [new_moon_day_q, new_moon_day_q]
  apply Int.floor_le_floor
  have hJ := nm_Jd1_diff_lower s hs1 hs2 hk1 hk2
  have hC := nm_C1_bound s hs1 hs2 hk1 (by omega : k ≤ 3001)
  have hC' := nm_C1_bound s hs1 hs2 (by omega : (0:ℤ) ≤ k + 1) (by omega : k + 1 ≤ 3001)
  have hD := nm_deltat_bound hk1 (by omega : k ≤ 3001)
  have hD' := nm_deltat_bound (by omega : (0:ℤ) ≤ k + 1) (by omega : k + 1 ≤ 3001)
  linarith [hC.1, hC.2, hC'.1, hC'.2, hD.1, hD.2, hD'.1, hD'.2]

/-- Witness for C8 at the zero sine oracle and `k = 100`, `tz = 7`. -/
theorem C8_new_moon_monotone_witness :
    new_moon_day_q (fun _ => 0) 100 7 ≤ new_moon_day_q (fun _ => 0) (100 + 1) 7 :=
  C8_new_moon_monotone (fun _ => 0) (fun x => by norm_num) (fun x => by norm_num) 100 7
    (by norm_num) (by norm_num)

end Ziwei
